import Mathlib

/-!
Shallow embedding of the `python_service/app/agent` package of the
shopify-ai-analytics repository, covering the pieces exercised by the
verified properties below:

* `query_generator.py` — `_validate_query`, `generate`, `_should_use_graphql`
  and the `QueryTemplates` library;
* `analytics_agent.py` — `_understand_intent`, `_create_plan`, the branch
  structure of `_execute_query`;
* `result_explainer.py` — `_generate_summary`, `_handle_error_data`,
  `_calculate_confidence` and the dispatch at the top of `explain`.

Conventions of the embedding:
* LLM calls are abstracted as oracle arguments (a completion is an input);
* Python `None` becomes `Option.none`; a dict key that may be absent becomes
  an `Option` field; a Python dict used as a record becomes a structure, and
  a dict used as an ordered map of summary fields becomes an association list
  in insertion order;
* numeric cell values are modelled over `ℚ`;
* exceptions are modelled with `Except` / `Option` results.
-/

/-! ### Python string primitives (`str.upper`, `in`, `str.count`) -/

/-- ASCII uppercase of one character, as Python's `str.upper` acts on the
ASCII strings this service manipulates. -/
def charUp (c : Char) : Char :=
  if 'a' ≤ c ∧ c ≤ 'z' then Char.ofNat (c.toNat - 32) else c

/-- Python `s.upper()` (ASCII fragment). -/
def pyUpper (s : String) : String := String.mk (s.toList.map charUp)

/-- Character-list prefix test used to implement substring search. -/
def prefixMatch : List Char → List Char → Bool
  | [], _ => true
  | _ :: _, [] => false
  | a :: as, b :: bs => a = b && prefixMatch as bs

/-- Does `needle` occur as a contiguous run inside the second list? -/
def infixMatch (needle : List Char) : List Char → Bool
  | [] => prefixMatch needle []
  | b :: bs => prefixMatch needle (b :: bs) || infixMatch needle bs

/-- Python `needle in hay` on strings. -/
def pyIn (needle hay : String) : Bool := infixMatch needle.toList hay.toList

/-- Python `s.count(c)` for a single character. -/
def pyCountChar (s : String) (c : Char) : Nat := s.toList.count c

/-! ### Data model (`app/models/schemas.py`) -/

/-- `DataSource` enum from `schemas.py`. -/
inductive DataSource
  | orders
  | products
  | inventory
  | customers
  | sales
deriving DecidableEq, Repr

/-- Python `DataSource(s)`: value lookup in the enum; `none` models the
`ValueError` raised when `s` names no member. -/
def DataSource.ofString (s : String) : Option DataSource :=
  if s = "orders" then some .orders
  else if s = "products" then some .products
  else if s = "inventory" then some .inventory
  else if s = "customers" then some .customers
  else if s = "sales" then some .sales
  else none

/-- `QuestionIntent` model from `schemas.py`; `filters` is kept as an
association list of string pairs. -/
structure QuestionIntent where
  primary_intent : String
  data_sources : List DataSource
  time_period : Option String
  metrics : List String
  filters : List (String × String)
  aggregation : Option String
deriving DecidableEq, Repr

/-! ### Query validation (`query_generator.py`, `_validate_query`) -/

/-- The dict returned by `_validate_query`. -/
structure Validation where
  is_valid : Bool
  errors : List String
deriving DecidableEq, Repr

/-- `ShopifyQLGenerator._validate_query`, line for line: empty query returns
early; otherwise the four checks append their messages in order. -/
def validate_query (query : String) : Validation :=
  if query = "" then { is_valid := false, errors := ["Query is empty"] }
  else
    let qu := pyUpper query
    let errors : List String :=
      (if pyIn "FROM" qu then [] else ["Missing FROM clause"])
      ++ (if pyIn "SALES" qu || pyIn "ORDERS" qu || pyIn "PRODUCTS" qu
            || pyIn "CUSTOMERS" qu then [] else ["Invalid or missing table name"])
      ++ (if pyIn "SHOW" qu then [] else ["Missing SHOW clause"])
      ++ (if pyCountChar qu '(' = pyCountChar qu ')' then []
          else ["Unmatched parentheses"])
    { is_valid := errors.length = 0, errors := errors }

/-- The validator as the specification describes it: five checks in order,
with the full list of violated checks reported (no early return on the
empty query). Used to compare against `validate_query`. -/
def specValidate (query : String) : Validation :=
  let qu := pyUpper query
  let errors : List String :=
    (if query = "" then ["Query is empty"] else [])
    ++ (if pyIn "FROM" qu then [] else ["Missing FROM clause"])
    ++ (if pyIn "SALES" qu || pyIn "ORDERS" qu || pyIn "PRODUCTS" qu
          || pyIn "CUSTOMERS" qu then [] else ["Invalid or missing table name"])
    ++ (if pyIn "SHOW" qu then [] else ["Missing SHOW clause"])
    ++ (if pyCountChar qu '(' = pyCountChar qu ')' then []
        else ["Unmatched parentheses"])
  { is_valid := errors.length = 0, errors := errors }

/-! ### Query generation (`query_generator.py`, `generate`) -/

/-- The dict returned by `ShopifyQLGenerator.generate`. Keys that one branch
omits are `Option` fields set to `none` there. -/
structure GenResult where
  query : Option String
  query_type : String
  is_valid : Option Bool
  validation_errors : Option (List String)
  reason : Option String
  description : Option String
deriving DecidableEq, Repr

/-- `_should_use_graphql`: membership of the primary intent in the list of
GraphQL-only intents. -/
def should_use_graphql (intent : QuestionIntent) : Bool :=
  intent.primary_intent = "customer_details"
    || intent.primary_intent = "order_details"
    || intent.primary_intent = "product_details"

/-- `_describe_query`: dictionary lookup with a default description. -/
def describe_query (intent : QuestionIntent) : String :=
  if intent.primary_intent = "inventory_forecast" then
    "Analyzing sales velocity and current inventory to project future needs"
  else if intent.primary_intent = "sales_analysis" then
    "Aggregating sales data to identify top performers and trends"
  else if intent.primary_intent = "customer_analysis" then
    "Analyzing customer purchase patterns and loyalty metrics"
  else if intent.primary_intent = "product_performance" then
    "Evaluating product performance metrics"
  else if intent.primary_intent = "general_analysis" then
    "Retrieving relevant store analytics"
  else "Analyzing store data"

/-- `ShopifyQLGenerator.generate`. The two LLM calls are oracles:
`gen` is the (already fence-stripped) completion of `_generate_with_llm`,
`fix` maps a query and its validation errors to the completion of
`_fix_query`. Alongside the result dict we return how many times `_fix_query`
was invoked, to make the repair-attempt count a provable quantity. -/
def generate (intent : QuestionIntent) (gen : String)
    (fix : String → List String → String) : GenResult × Nat :=
  if should_use_graphql intent then
    ({ query := none, query_type := "graphql", is_valid := none,
       validation_errors := none,
       reason := some "Query requires data not available in ShopifyQL",
       description := none }, 0)
  else
    let query := gen
    let validation := validate_query query
    if validation.is_valid then
      ({ query := some query, query_type := "shopifyql",
         is_valid := some validation.is_valid,
         validation_errors := some validation.errors,
         reason := none, description := some (describe_query intent) }, 0)
    else
      let query := fix query validation.errors
      let validation := validate_query query
      ({ query := some query, query_type := "shopifyql",
         is_valid := some validation.is_valid,
         validation_errors := some validation.errors,
         reason := none, description := some (describe_query intent) }, 1)

/-- The two branches of `AnalyticsAgent._execute_query`. -/
inductive ExecPath
  | shopifyql
  | graphql
deriving DecidableEq, Repr

/-- Branch selection in `_execute_query`: the ShopifyQL endpoint is used
exactly when the result's type is "shopifyql" and its query text is truthy
(present and non-empty); otherwise the GraphQL fetch runs. -/
def execPath (r : GenResult) : ExecPath :=
  if r.query_type = "shopifyql" ∧ r.query.getD "" ≠ "" then .shopifyql
  else .graphql

/-! ### Query templates (`query_generator.py`, `QueryTemplates`) -/

/-- `QueryTemplates.top_selling_products` (defaults `days=7`, `limit=5`). -/
def top_selling_products (days limit : Nat) : String :=
  s!"\nFROM sales\nSHOW product_title, SUM(ordered_item_quantity) AS units_sold, SUM(net_sales) AS revenue\nGROUP BY product_title\nSINCE -{days}d\nORDER BY units_sold DESC\nLIMIT {limit}\n"

/-- `QueryTemplates.daily_sales` (default `days=30`). -/
def daily_sales (days : Nat) : String :=
  s!"\nFROM sales\nSHOW day, SUM(net_sales) AS daily_revenue, SUM(ordered_item_quantity) AS units\nGROUP BY day\nSINCE -{days}d\nORDER BY day ASC\n"

/-- `QueryTemplates.product_inventory`. -/
def product_inventory : String :=
  "\nFROM products\nSHOW product_title, variant_sku, inventory_quantity\nWHERE inventory_quantity > 0\nORDER BY inventory_quantity ASC\n"

/-- `QueryTemplates.low_stock_alert` (default `threshold=10`). -/
def low_stock_alert (threshold : Nat) : String :=
  s!"\nFROM products\nSHOW product_title, variant_sku, inventory_quantity\nWHERE inventory_quantity <= {threshold}\nORDER BY inventory_quantity ASC\n"

/-- `QueryTemplates.sales_by_product` (default `days=30`). -/
def sales_by_product (days : Nat) : String :=
  s!"\nFROM sales\nSHOW product_title, SUM(ordered_item_quantity) AS total_sold, SUM(net_sales) AS total_revenue\nGROUP BY product_title\nSINCE -{days}d\nORDER BY total_sold DESC\n"

/-! ### Plan builder (`analytics_agent.py`, `_create_plan`) -/

/-- One step dict of the execution plan. -/
structure PlanStep where
  step : String
  description : String
  priority : Nat
deriving DecidableEq, Repr

/-- The `fetch_inventory` step literal from `_create_plan`. -/
def invStep : PlanStep :=
  { step := "fetch_inventory", description := "Get current inventory levels",
    priority := 1 }

/-- The `fetch_sales_data` step literal from `_create_plan`. -/
def salesStep : PlanStep :=
  { step := "fetch_sales_data",
    description := "Get sales/order data for the specified period",
    priority := 1 }

/-- The `fetch_customer_data` step literal from `_create_plan`. -/
def custStep : PlanStep :=
  { step := "fetch_customer_data", description := "Get customer information",
    priority := 2 }

/-- The `fetch_product_data` step literal from `_create_plan`. -/
def prodStep : PlanStep :=
  { step := "fetch_product_data", description := "Get product information",
    priority := 2 }

/-- The `analyze_data` step literal from `_create_plan`. -/
def analyzeStep : PlanStep :=
  { step := "analyze_data",
    description := "Calculate metrics and generate insights", priority := 3 }

/-- Stable insertion by priority: the new step goes after every existing step
of priority ≤ its own, as Python's stable `sorted` keeps equal keys in
encounter order. -/
def planInsert (x : PlanStep) : List PlanStep → List PlanStep
  | [] => [x]
  | y :: ys =>
    if y.priority ≤ x.priority then y :: planInsert x ys else x :: y :: ys

/-- Python `sorted(plan, key=lambda x: x["priority"])` (stable). -/
def sortPlan (plan : List PlanStep) : List PlanStep :=
  plan.foldl (fun acc x => planInsert x acc) []

/-- `AnalyticsAgent._create_plan`: conditional steps in category-check order,
the analysis step appended, then the stable priority sort. -/
def create_plan (intent : QuestionIntent) : List PlanStep :=
  let plan : List PlanStep :=
    (if DataSource.inventory ∈ intent.data_sources then [invStep] else [])
    ++ (if DataSource.orders ∈ intent.data_sources
          ∨ DataSource.sales ∈ intent.data_sources then [salesStep] else [])
    ++ (if DataSource.customers ∈ intent.data_sources then [custStep] else [])
    ++ (if DataSource.products ∈ intent.data_sources then [prodStep] else [])
    ++ [analyzeStep]
  sortPlan plan

/-! ### Intent extraction (`analytics_agent.py`, `_understand_intent`) -/

/-- The structured completion handed back by the text-completion capability,
as `_understand_intent` consumes it. A `none` field is an absent key, so
`response.get(key, default)` is `Option.getD`. (Values, when present, are
modelled well-typed except for data-source names, which may be arbitrary
strings — the failure mode the enum constructor checks.) -/
structure LLMIntentResponse where
  primary_intent : Option String
  data_sources : Option (List String)
  time_period : Option String
  metrics : Option (List String)
  filters : Option (List (String × String))
  aggregation : Option String
deriving DecidableEq, Repr

/-- The comprehension `[DataSource(s) for s in ...]`: names are converted
left to right, and the first unknown name aborts the whole list (the
`ValueError` of the enum constructor). -/
def dataSourcesOf : List String → Option (List DataSource)
  | [] => some []
  | s :: t =>
    match DataSource.ofString s with
    | none => none
    | some d => (dataSourcesOf t).map (d :: ·)

/-- `AnalyticsAgent._understand_intent`, after the capability call:
field-level `get` defaults feed the `QuestionIntent` constructor, and
`DataSource(s)` raises on an unknown name — modelled as `none` of the
whole extraction. -/
def understand_intent (response : LLMIntentResponse) : Option QuestionIntent :=
  (dataSourcesOf (response.data_sources.getD ["orders"])).map
    fun ds =>
      { primary_intent := response.primary_intent.getD "general_analysis",
        data_sources := ds,
        time_period := response.time_period,
        metrics := response.metrics.getD [],
        filters := response.filters.getD [],
        aggregation := response.aggregation }

/-! ### Summary generation (`result_explainer.py`, `_generate_summary`) -/

/-- One table cell as `float(cell)` sees it: Python `None`, or a value that
parses to a number, or one that makes `float` raise `ValueError`/`TypeError`
(modelled by `val none`). -/
inductive Cell
  | pynone
  | val (parsed : Option ℚ)
deriving DecidableEq, Repr

/-- Exceptions inside the per-column comprehension: `row[i]` out of range
(`IndexError`, not caught by the handler) or an unparseable value
(`ValueError`/`TypeError`, caught). -/
inductive PyExc
  | idxErr
  | valErr
deriving DecidableEq, Repr

/-- The comprehension `[float(row[i]) for row in rows if row[i] is not None]`:
rows are visited in order; a missing index raises `idxErr`, an unparseable
non-`None` cell raises `valErr`, and the first exception wins. -/
def colValues (i : Nat) : List (List Cell) → Except PyExc (List ℚ)
  | [] => .ok []
  | row :: rest =>
    match row[i]? with
    | none => .error .idxErr
    | some .pynone => colValues i rest
    | some (.val none) => .error .valErr
    | some (.val (some q)) => (colValues i rest).map (q :: ·)

/-- Values stored in the summary dict: row counts, numeric aggregates, the
column-name list. -/
inductive SummaryVal
  | nat (n : Nat)
  | num (q : ℚ)
  | strs (l : List String)
deriving DecidableEq, Repr

/-- Python `max(v :: rest)` over rationals. -/
def listMax (v : ℚ) (rest : List ℚ) : ℚ := rest.foldl max v

/-- Python `min(v :: rest)` over rationals. -/
def listMin (v : ℚ) (rest : List ℚ) : ℚ := rest.foldl min v

/-- The metric-keyword test on a column name:
`any(metric in col.lower() for metric in [...])`. Lower-casing is the
identity composed with the same ASCII case fold, so we fold the column name
through `pyUpper` of both sides being unnecessary: the source lower-cases the
column and compares with lowercase literals; we model `col.lower()` as the
ASCII lowercase map. -/
def charLow (c : Char) : Char :=
  if 'A' ≤ c ∧ c ≤ 'Z' then Char.ofNat (c.toNat + 32) else c

/-- Python `s.lower()` (ASCII fragment). -/
def pyLower (s : String) : String := String.mk (s.toList.map charLow)

/-- `any(metric in col_lower for metric in ["revenue", "sales", "total", "quantity", "units", "sold"])`. -/
def metricKeyword (col : String) : Bool :=
  let cl := pyLower col
  pyIn "revenue" cl || pyIn "sales" cl || pyIn "total" cl
    || pyIn "quantity" cl || pyIn "units" cl || pyIn "sold" cl

/-- The four aggregate entries written for a keyword column whose value list
`v :: rest` is non-empty. -/
def aggEntries (col : String) (v : ℚ) (rest : List ℚ) : List (String × SummaryVal) :=
  let values := v :: rest
  [ (col ++ "_total", .num values.sum),
    (col ++ "_average", .num (values.sum / values.length)),
    (col ++ "_max", .num (listMax v rest)),
    (col ++ "_min", .num (listMin v rest)) ]

/-- The `for i, col in enumerate(columns)` loop of `_generate_summary`:
keyword columns get their aggregates when the comprehension succeeds with a
non-empty list; `ValueError`/`TypeError` is swallowed for that column only;
`IndexError` escapes the whole call. -/
def summaryAggs (rows : List (List Cell)) :
    Nat → List String → Except Unit (List (String × SummaryVal))
  | _, [] => .ok []
  | i, col :: rest =>
    let tail := summaryAggs rows (i + 1) rest
    if metricKeyword col then
      match colValues i rows with
      | .error .idxErr => .error ()
      | .error .valErr => tail
      | .ok [] => tail
      | .ok (v :: vs) => tail.map (aggEntries col v vs ++ ·)
    else tail

/-- `ResultExplainer._generate_summary`: the fixed `total_rows` and `columns`
entries, then the per-column aggregates in column order. -/
def generate_summary (columns : List String) (rows : List (List Cell)) :
    Except Unit (List (String × SummaryVal)) :=
  (summaryAggs rows 0 columns).map
    (fun aggs => ("total_rows", .nat rows.length) :: ("columns", .strs columns) :: aggs)

/-! ### Error handling and dispatch (`result_explainer.py`, `explain`,
`_handle_error_data`) -/

/-- One upstream error object: `e.get("message", str(e))` reads the
`message` key when present, otherwise the object's string form. -/
structure ErrEntry where
  message : Option String
  asStr : String
deriving DecidableEq, Repr

/-- `e.get("message", str(e))`. -/
def errMsg (e : ErrEntry) : String := e.message.getD e.asStr

/-- The explainer's output dict (the fields the verified properties read). -/
structure ExplainOut where
  answer : String
  confidence : String
  query_used : Option String
  data_source : Option String
  errors : Option (List String)
deriving DecidableEq, Repr

/-- `ResultExplainer._handle_error_data`. -/
def handle_error_data (data_errors : List ErrEntry) : ExplainOut :=
  { answer := "I encountered an issue while trying to answer your question. "
      ++ "Please try rephrasing your question or asking about a different metric.",
    confidence := "low",
    query_used := none,
    data_source := none,
    errors := some (data_errors.map errMsg) }

/-- The normalized-result dict produced by
`AnalyticsAgent._validate_and_process_data`: `is_empty`/`is_error` flags
(an absent key reads as falsy `False`) and the error payload. -/
structure Normalized where
  is_empty : Bool
  is_error : Bool
  errors : List ErrEntry
deriving DecidableEq, Repr

/-- The states `explain` can route a normalized result to. -/
inductive ExplainRoute
  | emptyData
  | errorData
  | processed
deriving DecidableEq, Repr

/-- The dispatch at the top of `ResultExplainer.explain`: `is_empty` is
checked first, then `is_error`; otherwise the full pipeline runs. -/
def explainDispatch (n : Normalized) : ExplainRoute :=
  if n.is_empty then .emptyData
  else if n.is_error then .errorData
  else .processed

/-! ### Confidence scoring (`result_explainer.py`, `_calculate_confidence`) -/

/-- The `table` sub-dict of the processed result. -/
structure TableInfo where
  columns : List String
  rows : List (List Cell)
  row_count : Nat
deriving DecidableEq, Repr

/-- The processed-result dict shape read by `_calculate_confidence`: an
optional `table`, the optional keyed GraphQL collections, and the summary
dict (whose entry count is what the scoring reads). -/
structure Processed where
  table : Option TableInfo
  orders : Option (List Unit)
  products : Option (List Unit)
  customers : Option (List Unit)
  summary : List (String × SummaryVal)
deriving DecidableEq, Repr

/-- `processed_data.get("table", {}).get("row_count", 0)`. -/
def tableRowCount (p : Processed) : Nat := (p.table.map TableInfo.row_count).getD 0

/-- Truthiness of `processed_data.get(k)` for a keyed collection: the key is
present and its list non-empty. -/
def keyedTruthy (o : Option (List Unit)) : Bool :=
  match o with
  | none => false
  | some l => !l.isEmpty

/-- `any(processed_data.get(k) for k in ["orders", "products", "customers"])`. -/
def anyKeyed (p : Processed) : Bool :=
  keyedTruthy p.orders || keyedTruthy p.products || keyedTruthy p.customers

/-- `intent.primary_intent in ["inventory_forecast", "sales_forecast"]`, the
membership test of the scoring's forecasting penalty. -/
def isForecastGoal (intent : QuestionIntent) : Bool :=
  intent.primary_intent = "inventory_forecast"
    || intent.primary_intent = "sales_forecast"

/-- `ResultExplainer._calculate_confidence`: the sequential score updates and
the final threshold mapping. The score lives in `ℤ` since the forecasting
penalty can drive it negative. -/
def calculate_confidence (p : Processed) (intent : QuestionIntent) : String :=
  let score : ℤ := 0
  let score : ℤ :=
    if tableRowCount p > 0 then score + 3
    else if anyKeyed p then score + 2
    else score
  let score : ℤ :=
    if tableRowCount p ≥ 30 then score + 2
    else if tableRowCount p ≥ 7 then score + 1
    else score
  let score : ℤ := if p.summary.length ≥ 3 then score + 1 else score
  let score : ℤ := if isForecastGoal intent then score - 1 else score
  if score ≥ 5 then "high" else if score ≥ 3 then "medium" else "low"

/-- Confidence scoring as the specification words it: a pure function of
(row count, summary field count, keyed-data presence, forecast-goal flag),
the four additive contributions, and the threshold map. Used to compare
against `calculate_confidence`. -/
def confidenceSpec (row_count summary_field_count : Nat)
    (has_keyed is_forecast : Bool) : String :=
  let score : ℤ :=
    (if row_count > 0 then 3 else if has_keyed then 2 else 0)
    + (if row_count ≥ 30 then 2 else if row_count ≥ 7 then 1 else 0)
    + (if summary_field_count ≥ 3 then 1 else 0)
    - (if is_forecast then 1 else 0)
  if score ≥ 5 then "high" else if score ≥ 3 then "medium" else "low"

/-! ### Specification-side descriptions of the summary generator, and
concrete inputs used by the verified properties -/

/-- `enumerate(columns)` starting at index `i`. -/
def enumColsFrom : Nat → List String → List (Nat × String)
  | _, [] => []
  | i, c :: cs => (i, c) :: enumColsFrom (i + 1) cs

/-- Column values as the specification words them: the parseable numeric
cells of column `i`, with `None` and unparseable cells skipped silently and
the rest still contributing. -/
def claimColValues (i : Nat) (rows : List (List Cell)) : List ℚ :=
  rows.filterMap fun row =>
    match row[i]? with
    | some (Cell.val (some q)) => some q
    | _ => none

/-- Per-column aggregates as the claim words them: every keyword column with
at least one parseable cell gets sum/average/max/min over its parseable
cells. -/
def claimColAggs (i : Nat) (col : String) (rows : List (List Cell)) :
    List (String × SummaryVal) :=
  if metricKeyword col then
    match claimColValues i rows with
    | [] => []
    | v :: vs => aggEntries col v vs
  else []

/-- The whole summary as the claim words it. -/
def claimSummarySpec (columns : List String) (rows : List (List Cell)) :
    List (String × SummaryVal) :=
  ("total_rows", .nat rows.length) :: ("columns", .strs columns)
    :: (enumColsFrom 0 columns).flatMap fun p => claimColAggs p.1 p.2 rows

/-- No non-`None` cell of column `i` is unparseable (so the per-column
comprehension raises nothing the handler would catch). -/
def colCellsOk (i : Nat) (rows : List (List Cell)) : Bool :=
  rows.all fun row =>
    match row[i]? with
    | some (.val none) => false
    | _ => true

/-- Per-column aggregates as the code actually behaves: a keyword column
contributes its four aggregates only when no non-`None` cell is unparseable
and at least one parseable value exists; one bad cell silently discards the
whole column's aggregates. -/
def amendedColAggs (i : Nat) (col : String) (rows : List (List Cell)) :
    List (String × SummaryVal) :=
  if metricKeyword col ∧ colCellsOk i rows = true then
    match claimColValues i rows with
    | [] => []
    | v :: vs => aggEntries col v vs
  else []

/-- The whole summary under the amended description. -/
def amendedSummarySpec (columns : List String) (rows : List (List Cell)) :
    List (String × SummaryVal) :=
  ("total_rows", .nat rows.length) :: ("columns", .strs columns)
    :: (enumColsFrom 0 columns).flatMap fun p => amendedColAggs p.1 p.2 rows

/-- A one-column table for the revenue column, holding the parseable values
1 and 3 around one unparseable cell. -/
def mixedRevenueRows : List (List Cell) :=
  [[.val (some 1)], [.val none], [.val (some 3)]]

/-- A processed result with a 35-row table and a 4-field summary. -/
def processedBigTable : Processed :=
  { table := some { columns := ["day", "net_sales"],
                    rows := List.replicate 35 [.val (some 1), .val (some 2)],
                    row_count := 35 },
    orders := none, products := none, customers := none,
    summary := [("total_rows", .nat 35), ("columns", .strs ["day", "net_sales"]),
                ("net_sales_total", .nat 70), ("net_sales_max", .nat 2)] }

/-- A processed result with no table, one non-empty keyed collection, and a
one-field summary. -/
def processedKeyedOnly : Processed :=
  { table := none, orders := some [()], products := none, customers := none,
    summary := [("orders_count", .nat 1)] }

/-- A non-forecast intent over sales data. -/
def salesIntent : QuestionIntent :=
  { primary_intent := "sales_analysis", data_sources := [.sales],
    time_period := none, metrics := [], filters := [], aggregation := none }

/-- A GraphQL-only intent (`customer_details`). -/
def detailsIntent : QuestionIntent :=
  { primary_intent := "customer_details", data_sources := [.customers],
    time_period := none, metrics := [], filters := [], aggregation := none }

/-- A structured completion whose `data_sources` names an unknown category. -/
def bogusSourceResponse : LLMIntentResponse :=
  { primary_intent := some "sales_analysis", data_sources := some ["bogus"],
    time_period := none, metrics := none, filters := none, aggregation := none }

/-- The fully-absent structured completion (every key missing). -/
def emptyResponse : LLMIntentResponse :=
  { primary_intent := none, data_sources := none, time_period := none,
    metrics := none, filters := none, aggregation := none }

/-- An intent whose data categories include both inventory and orders. -/
def invOrdersIntent : QuestionIntent :=
  { primary_intent := "inventory_forecast",
    data_sources := [.inventory, .orders],
    time_period := none, metrics := [], filters := [], aggregation := none }

/-! ### Helper lemmas -/

/-- The sequential score accumulation of the code equals the additive spec
formula, over generalized inputs. -/
theorem conf_eq (rc n : Nat) (k fg : Bool) :
    (let score : ℤ := 0
     let score : ℤ := if rc > 0 then score + 3 else if k then score + 2 else score
     let score : ℤ := if rc ≥ 30 then score + 2 else if rc ≥ 7 then score + 1 else score
     let score : ℤ := if n ≥ 3 then score + 1 else score
     let score : ℤ := if fg then score - 1 else score
     if score ≥ 5 then "high" else if score ≥ 3 then "medium" else "low")
    = confidenceSpec rc n k fg := by
  rcases k <;> rcases fg <;> by_cases h1 : rc > 0 <;> by_cases h2 : rc ≥ 30 <;>
    by_cases h3 : rc ≥ 7 <;> by_cases h4 : n ≥ 3 <;>
    first
      | (exfalso; omega)
      | norm_num [confidenceSpec, h1, h2, h3, h4]

/-- Converting a list of data-source names succeeds when every name is
known. -/
theorem dataSourcesOf_total (l : List String)
    (h : ∀ s ∈ l, (DataSource.ofString s).isSome = true) :
    ∃ ds, dataSourcesOf l = some ds := by
  induction l with
  | nil => exact ⟨[], rfl⟩
  | cons s t ih =>
    obtain ⟨d, hd⟩ := Option.isSome_iff_exists.mp (h s (List.mem_cons_self s t))
    obtain ⟨ds, hds⟩ := ih (fun x hx => h x (List.mem_cons_of_mem s hx))
    exact ⟨d :: ds, by simp [dataSourcesOf, hd, hds]⟩

/-- On column indices that every row covers, the per-column comprehension
succeeds with the parseable non-`None` values exactly when no non-`None`
cell is unparseable, and otherwise raises the caught exception. -/
theorem colValues_char (i : Nat) (rows : List (List Cell))
    (h : ∀ row ∈ rows, i < row.length) :
    colValues i rows
      = if colCellsOk i rows then Except.ok (claimColValues i rows)
        else Except.error PyExc.valErr := by
  induction rows with
  | nil => rfl
  | cons row rest ih =>
    have hlen : i < row.length := h row (List.mem_cons_self row rest)
    have hrest : ∀ r ∈ rest, i < r.length :=
      fun r hr => h r (List.mem_cons_of_mem row hr)
    have hsome : row[i]? = some row[i] := List.getElem?_eq_getElem hlen
    cases hc : row[i] with
    | pynone =>
      rw [hc] at hsome
      have hcv : colValues i (row :: rest) = colValues i rest := by
        simp only [colValues, hsome]
      have hck : colCellsOk i (row :: rest) = colCellsOk i rest := by
        simp only [colCellsOk, List.all_cons, hsome, Bool.true_and]
      have hcl : claimColValues i (row :: rest) = claimColValues i rest := by
        simp only [claimColValues, List.filterMap_cons, hsome]
      rw [hcv, hck, hcl, ih hrest]
    | val p =>
      rw [hc] at hsome
      cases p with
      | none =>
        have hcv : colValues i (row :: rest) = Except.error PyExc.valErr := by
          simp only [colValues, hsome]
        have hck : colCellsOk i (row :: rest) = false := by
          simp [colCellsOk, List.all_cons, hsome]
        rw [hcv, hck]
        simp
      | some q =>
        have hcv : colValues i (row :: rest) = (colValues i rest).map (q :: ·) := by
          simp only [colValues, hsome]
        have hck : colCellsOk i (row :: rest) = colCellsOk i rest := by
          simp only [colCellsOk, List.all_cons, hsome, Bool.true_and]
        have hcl : claimColValues i (row :: rest) = q :: claimColValues i rest := by
          simp only [claimColValues, List.filterMap_cons, hsome]
        rw [hcv, hck, hcl, ih hrest]
        by_cases hok : colCellsOk i rest <;> simp [hok, Except.map]

/-- The summary loop over columns equals the amended per-column description
when every row covers all remaining column indices. -/
theorem summaryAggs_char (rows : List (List Cell)) (cs : List String) :
    ∀ i : Nat, (∀ row ∈ rows, i + cs.length ≤ row.length) →
    summaryAggs rows i cs
      = Except.ok ((enumColsFrom i cs).flatMap fun p => amendedColAggs p.1 p.2 rows) := by
  induction cs with
  | nil => intro i _; rfl
  | cons col rest ih =>
    intro i h
    have hlen : ∀ row ∈ rows, i < row.length := by
      intro r hr
      have := h r hr
      simp only [List.length_cons] at this
      omega
    have hnext : ∀ row ∈ rows, (i + 1) + rest.length ≤ row.length := by
      intro r hr
      have := h r hr
      simp only [List.length_cons] at this
      omega
    simp only [summaryAggs, enumColsFrom, List.flatMap_cons]
    rw [ih (i + 1) hnext, colValues_char i rows hlen]
    by_cases hk : metricKeyword col
    · by_cases hok : colCellsOk i rows
      · cases hcv : claimColValues i rows with
        | nil => simp [hk, hok, hcv, amendedColAggs]
        | cons v vs => simp [hk, hok, hcv, amendedColAggs, Except.map]
      · simp [hk, hok, amendedColAggs]
    · simp [hk, amendedColAggs]

/-! ### Verified properties -/

/-- C1: confidence scoring is a deterministic pure function of the processed
result shape and the intent goal, equal to the spec formula (+3 table rows /
else +2 keyed data; +2 for ≥ 30 rows else +1 for ≥ 7; +1 for ≥ 3 summary
fields; −1 for a forecast goal; ≥ 5 high, ≥ 3 medium, else low); a 35-row
table with a 4-field summary and a non-forecast goal scores "high", and a
row-less result with keyed data, a small summary and a non-forecast goal
scores "low". -/
theorem confidence_scoring_matches_spec (p : Processed) (intent : QuestionIntent) :
    calculate_confidence p intent
      = confidenceSpec (tableRowCount p) p.summary.length (anyKeyed p)
          (isForecastGoal intent)
    ∧ calculate_confidence processedBigTable salesIntent = "high"
    ∧ calculate_confidence processedKeyedOnly salesIntent = "low" :=
  ⟨conf_eq (tableRowCount p) p.summary.length (anyKeyed p) (isForecastGoal intent),
   by decide, by decide⟩

/-- C2 counterexample: the claim says unparseable cells are skipped silently
with the remaining cells still contributing, so on a revenue column holding
1, an unparseable cell and 3 the claimed summary carries the four revenue
aggregates; the code instead aborts the whole column on the first
unparseable cell and produces no aggregate entries at all. -/
theorem summary_unparseable_cell_drops_column_cx :
    (claimSummarySpec ["revenue"] mixedRevenueRows).map Prod.fst
      = ["total_rows", "columns", "revenue_total", "revenue_average",
         "revenue_max", "revenue_min"]
    ∧ generate_summary ["revenue"] mixedRevenueRows
      = Except.ok [("total_rows", SummaryVal.nat 3),
                   ("columns", SummaryVal.strs ["revenue"])] :=
  ⟨by decide, rfl⟩

/-- C2 amended: on tables whose rows cover every column, the summary holds
`total_rows`, `columns`, and then, per keyword column in order: the four
aggregates over the non-`None` cells when those all parse and at least one
exists; nothing when the column has no parseable cells; and nothing at all
when any non-`None` cell is unparseable (one bad cell silently drops that
column's aggregates, other columns unaffected). -/
theorem summary_aggregates_amended (columns : List String) (rows : List (List Cell))
    (h : ∀ row ∈ rows, columns.length ≤ row.length) :
    generate_summary columns rows = Except.ok (amendedSummarySpec columns rows) := by
  have h0 : ∀ row ∈ rows, 0 + columns.length ≤ row.length := by
    intro r hr
    simpa using h r hr
  simp only [generate_summary, amendedSummarySpec]
  rw [summaryAggs_char rows columns 0 h0]
  rfl

/-- C2 witness: the amended description instantiated on the concrete
one-column revenue table. -/
theorem summary_aggregates_amended_witness :
    (∀ row ∈ mixedRevenueRows, (["revenue"] : List String).length ≤ row.length)
    ∧ generate_summary ["revenue"] mixedRevenueRows
        = Except.ok (amendedSummarySpec ["revenue"] mixedRevenueRows) :=
  ⟨by decide, summary_aggregates_amended ["revenue"] mixedRevenueRows (by decide)⟩

/-- C3 counterexample: a structured completion whose `data_sources` names an
unknown category makes the extractor raise (the enum constructor's
`ValueError`), so recovery does not cover every malformed completion. -/
theorem intent_defaults_raise_on_unknown_source_cx :
    understand_intent bogusSourceResponse = none := by decide

/-- C3 amended: the extractor recovers from missing fields — absent goal
becomes "general_analysis", absent categories become the single-element
[orders], metrics/filters default to empty and time window/aggregation pass
through — and succeeds whenever every present data-source name is a known
category; an unknown name still raises. -/
theorem intent_defaults_amended (r : LLMIntentResponse)
    (h : ∀ s ∈ r.data_sources.getD ["orders"], (DataSource.ofString s).isSome = true) :
    ∃ intent, understand_intent r = some intent
      ∧ (r.primary_intent = none → intent.primary_intent = "general_analysis")
      ∧ (∀ s, r.primary_intent = some s → intent.primary_intent = s)
      ∧ (r.data_sources = none → intent.data_sources = [DataSource.orders])
      ∧ (r.metrics = none → intent.metrics = [])
      ∧ (r.filters = none → intent.filters = [])
      ∧ intent.time_period = r.time_period
      ∧ intent.aggregation = r.aggregation := by
  obtain ⟨ds, hds⟩ := dataSourcesOf_total _ h
  refine ⟨{ primary_intent := r.primary_intent.getD "general_analysis", data_sources := ds,
            time_period := r.time_period, metrics := r.metrics.getD [],
            filters := r.filters.getD [], aggregation := r.aggregation },
          by rw [understand_intent, hds]; rfl, ?_, ?_, ?_, ?_, ?_, rfl, rfl⟩
  · intro h0; simp [h0]
  · intro s h0; simp [h0]
  · intro h0
    rw [h0] at hds
    have h2 : dataSourcesOf ["orders"] = some [DataSource.orders] := by decide
    simp only [Option.getD_none] at hds
    rw [h2] at hds
    simpa using hds.symm
  · intro h0; simp [h0]
  · intro h0; simp [h0]

/-- C3 witness: the amended recovery instantiated on the completion with
every key missing. -/
theorem intent_defaults_amended_witness :
    ∃ intent, understand_intent emptyResponse = some intent
      ∧ (emptyResponse.primary_intent = none → intent.primary_intent = "general_analysis")
      ∧ (∀ s, emptyResponse.primary_intent = some s → intent.primary_intent = s)
      ∧ (emptyResponse.data_sources = none → intent.data_sources = [DataSource.orders])
      ∧ (emptyResponse.metrics = none → intent.metrics = [])
      ∧ (emptyResponse.filters = none → intent.filters = [])
      ∧ intent.time_period = emptyResponse.time_period
      ∧ intent.aggregation = emptyResponse.aggregation :=
  intent_defaults_amended emptyResponse (by decide)

/-- C4 counterexample: the empty query is missing a SHOW clause, yet the
validator short-circuits with only "Query is empty" — neither the SHOW
reason nor the full list of violated checks is reported. -/
theorem validator_empty_query_cx :
    pyIn "SHOW" (pyUpper "") = false
    ∧ validate_query "" = { is_valid := false, errors := ["Query is empty"] }
    ∧ "Missing SHOW clause" ∉ (validate_query "").errors
    ∧ validate_query "" ≠ specValidate "" := by
  refine ⟨rfl, rfl, by decide, ?_⟩
  intro h
  have h2 : (validate_query "").errors = (specValidate "").errors := by rw [h]
  revert h2
  decide

/-- C4 amended: on every non-empty query the validator applies its checks in
order and reports the full list of violated checks, and any query containing
a FROM keyword, a known table name, a SHOW keyword and balanced parentheses
is reported valid with an empty error list; the empty query alone
short-circuits with the single error "Query is empty". -/
theorem validator_error_list_amended (q : String) (h : q ≠ "") :
    validate_query q = specValidate q
    ∧ ((pyIn "FROM" (pyUpper q) = true
        ∧ (pyIn "SALES" (pyUpper q) || pyIn "ORDERS" (pyUpper q)
            || pyIn "PRODUCTS" (pyUpper q) || pyIn "CUSTOMERS" (pyUpper q)) = true
        ∧ pyIn "SHOW" (pyUpper q) = true
        ∧ pyCountChar (pyUpper q) '(' = pyCountChar (pyUpper q) ')') →
      validate_query q = { is_valid := true, errors := [] }) := by
  constructor
  · simp [validate_query, specValidate, h]
  · rintro ⟨h1, h2, h3, h4⟩
    simp [validate_query, h, h1, h2, h3, h4]

/-- C4 witness: the amended statement instantiated on a small well-formed
query. -/
theorem validator_error_list_amended_witness :
    ("FROM sales SHOW day" ≠ ""
      ∧ validate_query "FROM sales SHOW day" = specValidate "FROM sales SHOW day")
    ∧ validate_query "FROM sales SHOW day" = { is_valid := true, errors := [] } := by
  refine ⟨⟨by decide, (validator_error_list_amended "FROM sales SHOW day" (by decide)).1⟩, ?_⟩
  exact (validator_error_list_amended "FROM sales SHOW day" (by decide)).2
    ⟨by decide, by decide, by decide, by decide⟩

/-- C5: when the primary query fails validation, the generator performs
exactly one repair attempt — the repair oracle receives the original query
and its specific validation errors, the repaired query is re-validated once,
and the result is returned regardless of the second verdict, carrying the
second validation's validity flag and error list; a valid first query is
returned with no repair. -/
theorem single_repair_attempt (intent : QuestionIntent) (gen : String)
    (fix : String → List String → String)
    (h : should_use_graphql intent = false) :
    (generate intent gen fix).2 ≤ 1
    ∧ ((validate_query gen).is_valid = true →
        (generate intent gen fix).2 = 0
        ∧ (generate intent gen fix).1.query = some gen)
    ∧ ((validate_query gen).is_valid = false →
        (generate intent gen fix).2 = 1
        ∧ (generate intent gen fix).1.query = some (fix gen (validate_query gen).errors)
        ∧ (generate intent gen fix).1.is_valid
            = some (validate_query (fix gen (validate_query gen).errors)).is_valid
        ∧ (generate intent gen fix).1.validation_errors
            = some (validate_query (fix gen (validate_query gen).errors)).errors) := by
  simp only [generate, h, Bool.false_eq_true, if_false]
  rcases hv : (validate_query gen).is_valid with _ | _ <;> simp [hv]

/-- C5 witness: a failing first query ("bogus") triggers exactly one repair
and the repaired query is the one returned. -/
theorem single_repair_attempt_witness :
    should_use_graphql salesIntent = false
    ∧ (validate_query "bogus").is_valid = false
    ∧ (generate salesIntent "bogus" (fun _ _ => "FROM sales SHOW day")).2 = 1
    ∧ (generate salesIntent "bogus" (fun _ _ => "FROM sales SHOW day")).1.query
        = some "FROM sales SHOW day" := by
  refine ⟨by decide, by decide, ?_, ?_⟩
  · exact ((single_repair_attempt salesIntent "bogus"
      (fun _ _ => "FROM sales SHOW day") (by decide)).2.2 (by decide)).1
  · exact ((single_repair_attempt salesIntent "bogus"
      (fun _ _ => "FROM sales SHOW day") (by decide)).2.2 (by decide)).2.1

/-- C6: for every intent, the plan contains exactly one analyze_data step,
that step is the last element, and the plan is non-empty (the builder is a
total function with no error cases). -/
theorem plan_single_analyze_step_last (intent : QuestionIntent) :
    create_plan intent ≠ []
    ∧ (create_plan intent).getLast? = some analyzeStep
    ∧ (create_plan intent).countP (fun s => s.step == "analyze_data") = 1 := by
  simp only [create_plan]
  split_ifs <;> exact ⟨by decide, by decide, by decide⟩

/-- C7: for every intent whose categories include both inventory and orders,
the plan holds fetch_inventory and fetch_sales_data, both at priority 1,
with fetch_inventory before fetch_sales_data (the stable sort preserves the
category-check order). -/
theorem plan_inventory_before_sales (intent : QuestionIntent)
    (h1 : DataSource.inventory ∈ intent.data_sources)
    (h2 : DataSource.orders ∈ intent.data_sources) :
    invStep.priority = 1 ∧ salesStep.priority = 1
    ∧ invStep ∈ create_plan intent ∧ salesStep ∈ create_plan intent
    ∧ (create_plan intent).indexOf invStep < (create_plan intent).indexOf salesStep := by
  simp only [create_plan]
  split_ifs <;> first | decide | tauto

/-- C7 witness: the ordering instantiated on an intent with categories
{inventory, orders}. -/
theorem plan_inventory_before_sales_witness :
    invStep.priority = 1 ∧ salesStep.priority = 1
    ∧ invStep ∈ create_plan invOrdersIntent ∧ salesStep ∈ create_plan invOrdersIntent
    ∧ (create_plan invOrdersIntent).indexOf invStep
        < (create_plan invOrdersIntent).indexOf salesStep :=
  plan_inventory_before_sales invOrdersIntent (by decide) (by decide)

/-- C8: every generated result of the fallback type has absent query text
and is executed through the GraphQL fetch path, and conversely a
shopifyql-type result with non-empty query text is executed through the
ShopifyQL endpoint. -/
theorem fallback_query_execution_invariant (intent : QuestionIntent) (gen : String)
    (fix : String → List String → String) :
    ((generate intent gen fix).1.query_type = "graphql" →
      (generate intent gen fix).1.query = none
      ∧ execPath (generate intent gen fix).1 = ExecPath.graphql)
    ∧ (∀ q : String, (generate intent gen fix).1.query_type = "shopifyql" →
        (generate intent gen fix).1.query = some q → q ≠ "" →
        execPath (generate intent gen fix).1 = ExecPath.shopifyql) := by
  simp only [generate]
  split_ifs with hg hv
  · exact ⟨fun _ => ⟨rfl, by decide⟩, fun q habs => by simp at habs⟩
  · refine ⟨fun habs => by simp at habs, fun q _ hq hne => ?_⟩
    simp only [Option.some.injEq] at hq
    simp [execPath, hq ▸ hne]
  · refine ⟨fun habs => by simp at habs, fun q _ hq hne => ?_⟩
    simp only [Option.some.injEq] at hq
    simp [execPath, hq ▸ hne]

/-- C8 witness: a customer_details intent yields a fallback result with
absent text routed to GraphQL, and a valid sales query is routed to the
ShopifyQL endpoint. -/
theorem fallback_query_execution_invariant_witness :
    ((generate detailsIntent "" (fun q _ => q)).1.query = none
      ∧ execPath (generate detailsIntent "" (fun q _ => q)).1 = ExecPath.graphql)
    ∧ execPath (generate salesIntent "FROM sales SHOW day" (fun q _ => q)).1
        = ExecPath.shopifyql := by
  refine ⟨(fallback_query_execution_invariant detailsIntent "" (fun q _ => q)).1 rfl, ?_⟩
  exact (fallback_query_execution_invariant salesIntent "FROM sales SHOW day"
    (fun q _ => q)).2 "FROM sales SHOW day" rfl rfl (by decide)

/-- C9: a normalized result in the error state is routed to the error
handler, which returns confidence "low" and surfaces every upstream error
message — the output error list has one entry per upstream error, in
order. -/
theorem error_result_surfaces_all_errors (errs : List ErrEntry) :
    explainDispatch { is_empty := false, is_error := true, errors := errs }
      = ExplainRoute.errorData
    ∧ (handle_error_data errs).confidence = "low"
    ∧ (handle_error_data errs).errors = some (errs.map errMsg)
    ∧ (errs.map errMsg).length = errs.length
    ∧ ∀ i : Nat, (errs.map errMsg)[i]? = (errs[i]?).map errMsg := by
  refine ⟨rfl, rfl, rfl, errs.length_map errMsg, fun i => ?_⟩
  simp

/-- C10: every template of the example library, rendered with its default
arguments, passes the validator with zero errors. -/
theorem templates_round_trip_valid :
    validate_query (top_selling_products 7 5) = { is_valid := true, errors := [] }
    ∧ validate_query (daily_sales 30) = { is_valid := true, errors := [] }
    ∧ validate_query product_inventory = { is_valid := true, errors := [] }
    ∧ validate_query (low_stock_alert 10) = { is_valid := true, errors := [] }
    ∧ validate_query (sales_by_product 30) = { is_valid := true, errors := [] } := by
  decide
